import Mathlib

/-!
Shallow embedding of the scoring engine of the Amberstone risk profiler
(`src/app.py`).  The engine is the pure function `compute_results`, which maps a
complete questionnaire submission to a `Results` record: a risk-attitude score
and band, a capacity-for-loss score and band, a reconciled final band,
allocation caps with alternatives gating, robustness flags, and descriptive
scope labels.  Python dictionary lookups (which raise `KeyError` on values
outside the fixed enumerations) are modelled by `Option`: `none` is the
engine's `InvalidInput` failure.
-/

namespace Amberstone

/-- Engine input: the 17 fields of one questionnaire submission
(the keys of the `inputs` dict passed to `compute_results`). -/
structure QuestionnaireInput where
  attitude_choices : List String
  emergency_months : String
  income_stability : String
  withdrawal_need : String
  debt_burden : String
  portfolio_dependence : String
  alt_scope_reits : Bool
  alt_scope_commodities : Bool
  alt_equities_toggle : Bool
  limited_experience_gate : Bool
deriving Repr, DecidableEq

/-- Allocation cap percentages (`max_equity` / `max_sukuk` / `max_alternatives`
dict values in `MAX_POLICY` rows and in the computed limits). -/
structure AllocationLimits where
  max_equity : Nat
  max_sukuk : Nat
  max_alternatives : Nat
deriving Repr, DecidableEq

/-- Echo of the five capacity answers, as returned in the results dict. -/
structure CapacityInputs where
  emergency_months : String
  income_stability : String
  withdrawal_need : String
  debt_burden : String
  portfolio_dependence : String
deriving Repr, DecidableEq

/-- Engine output: the dict returned by `compute_results`. -/
structure Results where
  risk_attitude_score : Nat
  risk_attitude_band : String
  neutral_count : Nat
  cap_points : Nat
  capacity_band : String
  capacity_max_allowed_band : String
  final_band : String
  override_applied : Bool
  base_limits : AllocationLimits
  final_limits : AllocationLimits
  alt_forced_zero_reasons : List String
  flags : List String
  alts_in_scope : List String
  capacity_inputs : CapacityInputs
deriving Repr, DecidableEq

/-- The five Likert labels, in the order offered by the form (`LIKERT`). -/
def LIKERT : List String :=
  ["Strongly agree", "Agree", "No strong opinion", "Disagree", "Strongly disagree"]

/-- The `LIKERT_TO_NUM` dict: Likert label to raw value 1..5;
a label outside the enumeration raises (`none`). -/
def LIKERT_TO_NUM : String → Option Nat
  | "Strongly disagree" => some 1
  | "Disagree" => some 2
  | "No strong opinion" => some 3
  | "Agree" => some 4
  | "Strongly agree" => some 5
  | _ => none

/-- The fixed statement list `ITEMS`: each statement paired with its
`is_normal` tag (`True` = normal-scored, `False` = reverse-scored). -/
def ITEMS : List (String × Bool) :=
  [("People who know me would describe me as cautious with money.", false),
   ("I’m comfortable investing in assets that can fall in value as well as rise (e.g., equities).", true),
   ("I usually prefer safer options even if that reduces long-term return potential.", false),
   ("I tend to take a long time to decide on investment choices.", false),
   ("I see financial risk more as an opportunity than a danger.", true),
   ("I generally prefer cash deposits over market-based investments.", false),
   ("I find investing concepts fairly easy to understand.", true),
   ("I’m willing to accept meaningful ups and downs to pursue higher returns.", true),
   ("I have limited experience with funds, shares, or market investing.", false),
   ("I often feel anxious about investment decisions after I make them.", false),
   ("I’d rather accept higher investment risk than simply save more to reach my goals.", true),
   ("I’m not comfortable with the short-term swings that markets can experience.", false)]

/-- The band-from-score chain `category_from_score`. -/
def category_from_score (score_0_100 : Nat) : String :=
  if score_0_100 ≤ 25 then "Very Cautious (0–25)"
  else if score_0_100 ≤ 33 then "Cautious (26–33)"
  else if score_0_100 ≤ 44 then "Moderately Cautious (34–44)"
  else if score_0_100 ≤ 56 then "Balanced (45–56)"
  else if score_0_100 ≤ 67 then "Moderately Adventurous (57–67)"
  else if score_0_100 ≤ 79 then "Adventurous (68–79)"
  else "Very Adventurous (80–100)"

/-- The `MAX_POLICY` dict: band to base allocation caps. -/
def MAX_POLICY : String → Option AllocationLimits
  | "Very Cautious (0–25)" => some ⟨0, 100, 0⟩
  | "Cautious (26–33)" => some ⟨20, 80, 0⟩
  | "Moderately Cautious (34–44)" => some ⟨30, 70, 0⟩
  | "Balanced (45–56)" => some ⟨40, 60, 0⟩
  | "Moderately Adventurous (57–67)" => some ⟨60, 35, 5⟩
  | "Adventurous (68–79)" => some ⟨70, 20, 10⟩
  | "Very Adventurous (80–100)" => some ⟨70, 0, 30⟩
  | _ => none

/-- The `BAND_ORDER` list: the 7 bands from most cautious to most adventurous. -/
def BAND_ORDER : List String :=
  ["Very Cautious (0–25)",
   "Cautious (26–33)",
   "Moderately Cautious (34–44)",
   "Balanced (45–56)",
   "Moderately Adventurous (57–67)",
   "Adventurous (68–79)",
   "Very Adventurous (80–100)"]

/-- The `band_at_or_below` helper: the more cautious of two bands, by
`BAND_ORDER` position (list indexing modelled with a default, only
reached at indices that are in range in the engine). -/
def band_at_or_below (current_band max_band : String) : String :=
  BAND_ORDER.getD (min (BAND_ORDER.indexOf current_band) (BAND_ORDER.indexOf max_band)) ""

/-- Sub-score dict for `emergency_months`. -/
def EMERGENCY_SCORE : String → Option Nat
  | "< 3 months" => some 0
  | "3–6 months" => some 2
  | "6–12 months" => some 4
  | "12+ months" => some 6
  | _ => none

/-- Sub-score dict for `income_stability`. -/
def INCOME_SCORE : String → Option Nat
  | "Unstable/variable" => some 0
  | "Somewhat stable" => some 2
  | "Stable (salaried/contracted)" => some 4
  | "Very stable (multiple reliable sources)" => some 6
  | _ => none

/-- Sub-score dict for `withdrawal_need`. -/
def WITHDRAWAL_SCORE : String → Option Nat
  | "Very likely" => some 0
  | "Somewhat likely" => some 2
  | "Unlikely" => some 4
  | "Very unlikely" => some 6
  | _ => none

/-- Sub-score dict for `debt_burden`. -/
def DEBT_SCORE : String → Option Nat
  | "High / hard to service" => some 0
  | "Moderate" => some 2
  | "Low" => some 4
  | "None" => some 6
  | _ => none

/-- Sub-score dict for `portfolio_dependence`. -/
def DEPENDENCE_SCORE : String → Option Nat
  | "Highly dependent" => some 0
  | "Somewhat dependent" => some 2
  | "Not very dependent" => some 4
  | "Not dependent" => some 6
  | _ => none

/-- The capacity-band chain (`if cap_points <= 10 ... elif ... else`). -/
def capacity_band_of (cap_points : Nat) : String :=
  if cap_points ≤ 10 then "Low capacity for loss"
  else if cap_points ≤ 20 then "Medium capacity for loss"
  else "High capacity for loss"

/-- The `CAPACITY_MAX_BAND` dict: capacity band to risk-band ceiling. -/
def CAPACITY_MAX_BAND : String → Option String
  | "Low capacity for loss" => some "Moderately Cautious (34–44)"
  | "Medium capacity for loss" => some "Balanced (45–56)"
  | "High capacity for loss" => some "Very Adventurous (80–100)"
  | _ => none

/-- Rounding used by the source: Python's built-in `round` (ties to the even
integer) applied to the exact rational `num / den`.  On the values the scorer
reaches, `(raw_total - 12) / 48 * 100`, the floating-point computation in the
source is exact at every tie (`raw_total - 12 ≡ 6 [MOD 12]` gives a dyadic
rational), so this integer model agrees with the source everywhere. -/
def round_half_to_even (num den : Nat) : Nat :=
  if 2 * (num % den) < den then num / den
  else if den < 2 * (num % den) then num / den + 1
  else if num / den % 2 = 0 then num / den else num / den + 1

/-- Raw Likert values of the answered statements: the `responses_raw` list
built by the scoring loop (`zip` truncates to the shorter list, as in Python;
a label outside `LIKERT_TO_NUM` raises, modelled by `none`). -/
def attitude_raws (choices : List String) : Option (List Nat) :=
  (ITEMS.zip choices).mapM (fun q => LIKERT_TO_NUM q.2)

/-- Count of "No strong opinion" selections among the answered statements
(`neutral_count` accumulated in the scoring loop). -/
def neutral_count_of (choices : List String) : Nat :=
  ((ITEMS.zip choices).filter (fun q => q.2 == "No strong opinion")).length

/-- The transformed sum `raw_total`: each raw value is kept for a normal-scored
statement and replaced by `6 - raw` for a reverse-scored one, then summed
(`responses_scored` and `sum(responses_scored)` in the source). -/
def raw_total_of (raws : List Nat) : Nat :=
  (List.zipWith (fun is_normal raw => if is_normal then raw else 6 - raw)
    (ITEMS.map Prod.snd) raws).sum

/-- Normalisation `round((raw_total - 12) / (60 - 12) * 100)`. -/
def risk_attitude_score_of (raw_total : Nat) : Nat :=
  round_half_to_even ((raw_total - 12) * 100) 48

/-- The alternatives-gating reasons, appended in source order: liquidity,
then low capacity, then limited experience (`raw9` is `responses_raw[8]`,
the raw value of the 9th statement). -/
def alt_reasons_of (inputs : QuestionnaireInput) (capacity_band : String) (raw9 : Nat) :
    List String :=
  (if inputs.withdrawal_need = "Very likely" ∨ inputs.withdrawal_need = "Somewhat likely"
    then ["Large withdrawal likely within 3 years"] else []) ++
  (if capacity_band = "Low capacity for loss"
    then ["Low capacity for loss"] else []) ++
  (if inputs.limited_experience_gate = true ∧ 4 ≤ raw9
    then ["Client indicates limited investment experience"] else [])

/-- The gating step on the limits: force alternatives to 0 when any reason
fired, and fold the removed amount back into sukuk, capped at 100. -/
def gate_limits (reasons : List String) (base : AllocationLimits) : AllocationLimits :=
  let final0 := if reasons ≠ [] then { base with max_alternatives := 0 } else base
  let removed := base.max_alternatives - final0.max_alternatives
  if 0 < removed
    then { final0 with max_sukuk := min 100 (final0.max_sukuk + removed) }
    else final0

/-- The robustness flags, appended in source order. -/
def flags_of (neutral_count score raw9 raw12 : Nat) : List String :=
  (if 6 ≤ neutral_count
    then ["Many neutral answers (6+). Consider clarifying and reassessing."] else []) ++
  (if 68 ≤ score ∧ 4 ≤ raw12
    then ["High score but strong discomfort with market swings—discuss suitability carefully."]
    else []) ++
  (if 68 ≤ score ∧ 4 ≤ raw9
    then ["High score but self-reported limited experience—consider education / simplification."]
    else [])

/-- The descriptive alternatives-scope labels, appended in source order. -/
def alts_in_scope_of (inputs : QuestionnaireInput) : List String :=
  (if inputs.alt_scope_reits then ["Public REITs"] else []) ++
  (if inputs.alt_scope_commodities then ["Commodity funds"] else []) ++
  (if inputs.alt_equities_toggle
    then ["Selected equities treated as 'alternative-like' (internal classification)"] else [])

/-- The straight-line tail of `compute_results`, once every dict lookup and
list access has succeeded: `raws` is `responses_raw`, `e i w d p` are the five
capacity sub-scores, `raw9` and `raw12` are `responses_raw[8]` and
`responses_raw[11]`, `cmab` is the capacity ceiling band and `base` the
`MAX_POLICY` row for the final band. -/
def mk_results (inputs : QuestionnaireInput) (raws : List Nat)
    (e i w d p raw9 raw12 : Nat) (cmab : String) (base : AllocationLimits) :
    Results :=
  let neutral_count := neutral_count_of inputs.attitude_choices
  let risk_attitude_score := risk_attitude_score_of (raw_total_of raws)
  let risk_attitude_band := category_from_score risk_attitude_score
  let cap_points := e + i + w + d + p
  let capacity_band := capacity_band_of cap_points
  let final_band := band_at_or_below risk_attitude_band cmab
  let alt_forced_zero_reasons := alt_reasons_of inputs capacity_band raw9
  { risk_attitude_score := risk_attitude_score
    risk_attitude_band := risk_attitude_band
    neutral_count := neutral_count
    cap_points := cap_points
    capacity_band := capacity_band
    capacity_max_allowed_band := cmab
    final_band := final_band
    override_applied := final_band != risk_attitude_band
    base_limits := base
    final_limits := gate_limits alt_forced_zero_reasons base
    alt_forced_zero_reasons := alt_forced_zero_reasons
    flags := flags_of neutral_count risk_attitude_score raw9 raw12
    alts_in_scope := alts_in_scope_of inputs
    capacity_inputs :=
      { emergency_months := inputs.emergency_months
        income_stability := inputs.income_stability
        withdrawal_need := inputs.withdrawal_need
        debt_burden := inputs.debt_burden
        portfolio_dependence := inputs.portfolio_dependence } }

/-- The engine `compute_results`: every dict lookup and list access that can
raise in the source is an `Option` bind here; on success the pure tail
`mk_results` assembles the results dict. -/
def compute_results (inputs : QuestionnaireInput) : Option Results := do
  let raws ← attitude_raws inputs.attitude_choices
  let e ← EMERGENCY_SCORE inputs.emergency_months
  let i ← INCOME_SCORE inputs.income_stability
  let w ← WITHDRAWAL_SCORE inputs.withdrawal_need
  let d ← DEBT_SCORE inputs.debt_burden
  let p ← DEPENDENCE_SCORE inputs.portfolio_dependence
  let raw9 ← raws[8]?
  let raw12 ← raws[11]?
  let cmab ← CAPACITY_MAX_BAND (capacity_band_of (e + i + w + d + p))
  let base ← MAX_POLICY
    (band_at_or_below
      (category_from_score (risk_attitude_score_of (raw_total_of raws))) cmab)
  some (mk_results inputs raws e i w d p raw9 raw12 cmab base)

/-- The enumerated option set for `emergency_months`, ordered from lowest to
highest capacity (the order offered by the form and used by the score dict). -/
def EMERGENCY_OPTIONS : List String :=
  ["< 3 months", "3–6 months", "6–12 months", "12+ months"]

/-- The enumerated option set for `income_stability`, lowest capacity first. -/
def INCOME_OPTIONS : List String :=
  ["Unstable/variable", "Somewhat stable", "Stable (salaried/contracted)",
   "Very stable (multiple reliable sources)"]

/-- The enumerated option set for `withdrawal_need`, lowest capacity first. -/
def WITHDRAWAL_OPTIONS : List String :=
  ["Very likely", "Somewhat likely", "Unlikely", "Very unlikely"]

/-- The enumerated option set for `debt_burden`, lowest capacity first. -/
def DEBT_OPTIONS : List String :=
  ["High / hard to service", "Moderate", "Low", "None"]

/-- The enumerated option set for `portfolio_dependence`, lowest capacity first. -/
def DEPENDENCE_OPTIONS : List String :=
  ["Highly dependent", "Somewhat dependent", "Not very dependent", "Not dependent"]

/-- The three capacity bands, from lowest to highest capacity. -/
def CAPACITY_ORDER : List String :=
  ["Low capacity for loss", "Medium capacity for loss", "High capacity for loss"]

/-- Raw Likert value of the k-th (0-based) statement of a submission, read
directly off the input: the selected label mapped through `LIKERT_TO_NUM`
(0 when the position is absent or the label is out of enumeration).  Used to
state claims about individual statements. -/
def stmt_raw (inputs : QuestionnaireInput) (k : Nat) : Nat :=
  ((inputs.attitude_choices[k]?).bind LIKERT_TO_NUM).getD 0

/-- Inversion of the engine: `compute_results` succeeds exactly when every
lookup succeeds, and then the output is the pure tail `mk_results`. -/
theorem compute_results_eq_some {inputs : QuestionnaireInput} {r : Results} :
    compute_results inputs = some r ↔
      ∃ raws e i w d p raw9 raw12 cmab base,
        attitude_raws inputs.attitude_choices = some raws ∧
        EMERGENCY_SCORE inputs.emergency_months = some e ∧
        INCOME_SCORE inputs.income_stability = some i ∧
        WITHDRAWAL_SCORE inputs.withdrawal_need = some w ∧
        DEBT_SCORE inputs.debt_burden = some d ∧
        DEPENDENCE_SCORE inputs.portfolio_dependence = some p ∧
        raws[8]? = some raw9 ∧
        raws[11]? = some raw12 ∧
        CAPACITY_MAX_BAND (capacity_band_of (e + i + w + d + p)) = some cmab ∧
        MAX_POLICY (band_at_or_below
          (category_from_score (risk_attitude_score_of (raw_total_of raws))) cmab) = some base ∧
        r = mk_results inputs raws e i w d p raw9 raw12 cmab base := by
  simp only [compute_results, Option.bind_eq_bind, Option.bind_eq_some, Option.some.injEq]
  constructor
  · rintro ⟨raws, h1, e, h2, i, h3, w, h4, d, h5, p, h6, raw9, h7, raw12, h8, cmab, h9,
      base, h10, h11⟩
    exact ⟨raws, e, i, w, d, p, raw9, raw12, cmab, base,
      h1, h2, h3, h4, h5, h6, h7, h8, h9, h10, h11.symm⟩
  · rintro ⟨raws, e, i, w, d, p, raw9, raw12, cmab, base,
      h1, h2, h3, h4, h5, h6, h7, h8, h9, h10, h11⟩
    exact ⟨raws, h1, e, h2, i, h3, w, h4, d, h5, p, h6, raw9, h7, raw12, h8, cmab, h9,
      base, h10, h11.symm⟩

/-- Pointwise reading of a successful `Option`-valued `mapM`. -/
theorem mapM_option_getElem {α β : Type} {f : α → Option β} :
    ∀ {l : List α} {bs : List β}, l.mapM f = some bs → ∀ k : Nat, bs[k]? = (l[k]?).bind f := by
  intro l
  induction l with
  | nil =>
    intro bs h k
    simp only [List.mapM_nil, pure, Option.some.injEq] at h
    subst h
    simp
  | cons a t ih =>
    intro bs h k
    rw [List.mapM_cons] at h
    simp only [Option.bind_eq_bind, Option.bind_eq_some, pure, Option.some.injEq] at h
    obtain ⟨b, hb, bs', hbs', rfl⟩ := h
    cases k with
    | zero => simpa using hb.symm
    | succ k => simpa using ih hbs' k

/-- Length preservation of a successful `Option`-valued `mapM`. -/
theorem mapM_option_length {α β : Type} {f : α → Option β} :
    ∀ {l : List α} {bs : List β}, l.mapM f = some bs → bs.length = l.length := by
  intro l
  induction l with
  | nil =>
    intro bs h
    simp only [List.mapM_nil, pure, Option.some.injEq] at h
    subst h; rfl
  | cons a t ih =>
    intro bs h
    rw [List.mapM_cons] at h
    simp only [Option.bind_eq_bind, Option.bind_eq_some, pure, Option.some.injEq] at h
    obtain ⟨b, _, bs', hbs', rfl⟩ := h
    simpa using ih hbs'

/-- Every element of a successfully `mapM`-ed list has a successful image. -/
theorem mapM_option_mem {α β : Type} {f : α → Option β} :
    ∀ {l : List α} {bs : List β}, l.mapM f = some bs → ∀ a ∈ l, ∃ b, f a = some b := by
  intro l
  induction l with
  | nil => intro bs _ a ha; cases ha
  | cons x t ih =>
    intro bs h a ha
    rw [List.mapM_cons] at h
    simp only [Option.bind_eq_bind, Option.bind_eq_some, pure, Option.some.injEq] at h
    obtain ⟨b, hb, bs', hbs', rfl⟩ := h
    rcases List.mem_cons.mp ha with rfl | hmem
    · exact ⟨b, hb⟩
    · exact ih hbs' a hmem

/-- Every value produced by a successful `mapM` is the image of a list element. -/
theorem mapM_option_mem_rev {α β : Type} {f : α → Option β} :
    ∀ {l : List α} {bs : List β}, l.mapM f = some bs → ∀ b ∈ bs, ∃ a ∈ l, f a = some b := by
  intro l
  induction l with
  | nil =>
    intro bs h b hb
    simp only [List.mapM_nil, pure, Option.some.injEq] at h
    subst h; cases hb
  | cons x t ih =>
    intro bs h b hb
    rw [List.mapM_cons] at h
    simp only [Option.bind_eq_bind, Option.bind_eq_some, pure, Option.some.injEq] at h
    obtain ⟨b0, hb0, bs', hbs', rfl⟩ := h
    rcases List.mem_cons.mp hb with rfl | hmem
    · exact ⟨x, List.mem_cons_self x t, hb0⟩
    · obtain ⟨a, ha, hfa⟩ := ih hbs' b hmem
      exact ⟨a, List.mem_cons_of_mem x ha, hfa⟩

/-- Index access into a `zip` in terms of access into the two lists. -/
theorem zip_getElem {α β : Type} :
    ∀ (l1 : List α) (l2 : List β) (k : Nat),
      (l1.zip l2)[k]? = (l1[k]?).bind (fun a => (l2[k]?).map (fun b => (a, b))) := by
  intro l1
  induction l1 with
  | nil => intro l2 k; simp
  | cons a t1 ih =>
    intro l2 k
    cases l2 with
    | nil => cases k <;> simp
    | cons b t2 =>
      cases k with
      | zero => simp
      | succ k => simpa using ih t2 k

/-- The raw Likert values seen by the scoring loop agree with the values read
directly off the input at every statement position. -/
theorem attitude_raws_getElem {choices : List String} {raws : List Nat}
    (h : attitude_raws choices = some raws) {k : Nat} (hk : k < 12) :
    raws[k]? = (choices[k]?).bind LIKERT_TO_NUM := by
  have h1 := mapM_option_getElem h k
  rw [h1, zip_getElem]
  have hitems : ∃ it, ITEMS[k]? = some it := by
    have : k < ITEMS.length := by simpa [ITEMS] using hk
    exact ⟨ITEMS[k], List.getElem?_eq_some.mpr ⟨this, rfl⟩⟩
  obtain ⟨it, hit⟩ := hitems
  rw [hit]
  cases hc : choices[k]? <;> simp

/-- A successful run reads exactly 12 raw values. -/
theorem attitude_raws_length_of_12 {choices : List String} {raws : List Nat}
    (h : attitude_raws choices = some raws) {v : Nat} (h11 : raws[11]? = some v) :
    raws.length = 12 := by
  have hlen := mapM_option_length h
  have hzip : (ITEMS.zip choices).length = min 12 choices.length := by
    rw [List.length_zip]
    norm_num [ITEMS]
  have h12 : 11 < raws.length := by
    by_contra hlt
    rw [List.getElem?_eq_none (by omega)] at h11
    cases h11
  omega

section MkResultsFields

variable (inputs : QuestionnaireInput) (raws : List Nat) (e i w d p raw9 raw12 : Nat)
variable (cmab : String) (base : AllocationLimits)

theorem mk_score :
    (mk_results inputs raws e i w d p raw9 raw12 cmab base).risk_attitude_score =
      risk_attitude_score_of (raw_total_of raws) := rfl

theorem mk_band :
    (mk_results inputs raws e i w d p raw9 raw12 cmab base).risk_attitude_band =
      category_from_score (risk_attitude_score_of (raw_total_of raws)) := rfl

theorem mk_neutral :
    (mk_results inputs raws e i w d p raw9 raw12 cmab base).neutral_count =
      neutral_count_of inputs.attitude_choices := rfl

theorem mk_cap_points :
    (mk_results inputs raws e i w d p raw9 raw12 cmab base).cap_points = e + i + w + d + p := rfl

theorem mk_capacity_band :
    (mk_results inputs raws e i w d p raw9 raw12 cmab base).capacity_band =
      capacity_band_of (e + i + w + d + p) := rfl

theorem mk_cmab :
    (mk_results inputs raws e i w d p raw9 raw12 cmab base).capacity_max_allowed_band = cmab := rfl

theorem mk_final_band :
    (mk_results inputs raws e i w d p raw9 raw12 cmab base).final_band =
      band_at_or_below (category_from_score (risk_attitude_score_of (raw_total_of raws))) cmab := by
  unfold mk_results
  rfl

theorem mk_override :
    (mk_results inputs raws e i w d p raw9 raw12 cmab base).override_applied =
      (band_at_or_below (category_from_score (risk_attitude_score_of (raw_total_of raws))) cmab
        != category_from_score (risk_attitude_score_of (raw_total_of raws))) := by
  unfold mk_results
  dsimp only

theorem mk_base :
    (mk_results inputs raws e i w d p raw9 raw12 cmab base).base_limits = base := rfl

theorem mk_final_limits :
    (mk_results inputs raws e i w d p raw9 raw12 cmab base).final_limits =
      gate_limits (alt_reasons_of inputs (capacity_band_of (e + i + w + d + p)) raw9) base := rfl

theorem mk_reasons :
    (mk_results inputs raws e i w d p raw9 raw12 cmab base).alt_forced_zero_reasons =
      alt_reasons_of inputs (capacity_band_of (e + i + w + d + p)) raw9 := rfl

theorem mk_flags :
    (mk_results inputs raws e i w d p raw9 raw12 cmab base).flags =
      flags_of (neutral_count_of inputs.attitude_choices)
        (risk_attitude_score_of (raw_total_of raws)) raw9 raw12 := rfl

theorem mk_alts :
    (mk_results inputs raws e i w d p raw9 raw12 cmab base).alts_in_scope =
      alts_in_scope_of inputs := rfl

theorem mk_capacity_inputs :
    (mk_results inputs raws e i w d p raw9 raw12 cmab base).capacity_inputs =
      ⟨inputs.emergency_months, inputs.income_stability, inputs.withdrawal_need,
        inputs.debt_burden, inputs.portfolio_dependence⟩ := rfl

end MkResultsFields

/-- Every `MAX_POLICY` row sums to 100. -/
theorem MAX_POLICY_sum {b : String} {lim : AllocationLimits} (h : MAX_POLICY b = some lim) :
    lim.max_equity + lim.max_sukuk + lim.max_alternatives = 100 := by
  unfold MAX_POLICY at h
  split at h <;> first
    | exact Option.noConfusion h
    | (rw [← Option.some.inj h]; decide)

/-- Every band produced by `category_from_score` is in `BAND_ORDER`. -/
theorem category_from_score_mem (s : Nat) : category_from_score s ∈ BAND_ORDER := by
  unfold category_from_score
  repeat' split
  all_goals decide

/-- Every ceiling produced by `CAPACITY_MAX_BAND` is in `BAND_ORDER`. -/
theorem CAPACITY_MAX_BAND_mem {b c : String} (h : CAPACITY_MAX_BAND b = some c) :
    c ∈ BAND_ORDER := by
  unfold CAPACITY_MAX_BAND at h
  split at h <;> first
    | exact Option.noConfusion h
    | (rw [← Option.some.inj h]; decide)

/-- Positions of `BAND_ORDER` members are below 7. -/
theorem indexOf_BAND_ORDER_lt {b : String} (hb : b ∈ BAND_ORDER) :
    BAND_ORDER.indexOf b < 7 := by
  have h7 : BAND_ORDER.length = 7 := rfl
  have := List.indexOf_lt_length.mpr hb
  omega

/-- Reading `BAND_ORDER` back at a position below 7 inverts `indexOf`. -/
theorem indexOf_BAND_ORDER_getD :
    ∀ k : Fin 7, BAND_ORDER.indexOf (BAND_ORDER.getD (k : Nat) "") = (k : Nat) ∧
      BAND_ORDER.getD (k : Nat) "" ∈ BAND_ORDER := by
  decide

/-- On members of `BAND_ORDER`, `band_at_or_below` is the minimum in the
7-band total order (positions in `BAND_ORDER`). -/
theorem band_at_or_below_min {b1 b2 : String} (h1 : b1 ∈ BAND_ORDER) (h2 : b2 ∈ BAND_ORDER) :
    BAND_ORDER.indexOf (band_at_or_below b1 b2) =
      min (BAND_ORDER.indexOf b1) (BAND_ORDER.indexOf b2) ∧
    band_at_or_below b1 b2 ∈ BAND_ORDER := by
  have l1 := indexOf_BAND_ORDER_lt h1
  have l2 := indexOf_BAND_ORDER_lt h2
  have hmin : min (BAND_ORDER.indexOf b1) (BAND_ORDER.indexOf b2) < 7 := by omega
  have hk :=
    indexOf_BAND_ORDER_getD ⟨min (BAND_ORDER.indexOf b1) (BAND_ORDER.indexOf b2), hmin⟩
  exact ⟨by simpa [band_at_or_below] using hk.1, by simpa [band_at_or_below] using hk.2⟩

/-- The capacity ceiling looked up from the capacity band, as a function of
the points. -/
theorem CAPACITY_MAX_BAND_of_points (p : Nat) :
    CAPACITY_MAX_BAND (capacity_band_of p) =
      some (if p ≤ 10 then "Moderately Cautious (34–44)"
        else if p ≤ 20 then "Balanced (45–56)"
        else "Very Adventurous (80–100)") := by
  unfold capacity_band_of
  by_cases hA : p ≤ 10
  · rw [if_pos hA, if_pos hA]
    rfl
  · rw [if_neg hA, if_neg hA]
    by_cases hB : p ≤ 20
    · rw [if_pos hB, if_pos hB]
      rfl
    · rw [if_neg hB, if_neg hB]
      rfl

/-- Capacity band position is monotone in the points. -/
theorem capacity_band_mono {p1 p2 : Nat} (hp : p1 ≤ p2) :
    CAPACITY_ORDER.indexOf (capacity_band_of p1) ≤
      CAPACITY_ORDER.indexOf (capacity_band_of p2) := by
  unfold capacity_band_of
  repeat' split
  all_goals first | decide | (exfalso; omega)

/-- Capacity ceiling position is monotone in the points. -/
theorem cmab_mono {p1 p2 : Nat} (hp : p1 ≤ p2) {c1 c2 : String}
    (h1 : CAPACITY_MAX_BAND (capacity_band_of p1) = some c1)
    (h2 : CAPACITY_MAX_BAND (capacity_band_of p2) = some c2) :
    BAND_ORDER.indexOf c1 ≤ BAND_ORDER.indexOf c2 := by
  rw [CAPACITY_MAX_BAND_of_points] at h1 h2
  have hc1 := Option.some.inj h1
  have hc2 := Option.some.inj h2
  subst hc1
  subst hc2
  repeat' split
  all_goals first | decide | (exfalso; omega)

/-- Behaviour of the gating step on a base row whose sukuk and alternatives
caps sum to at most 100. -/
theorem gate_limits_eq (reasons : List String) (base : AllocationLimits)
    (hs : base.max_sukuk + base.max_alternatives ≤ 100) :
    (reasons = [] → gate_limits reasons base = base) ∧
    (reasons ≠ [] →
      gate_limits reasons base =
        ⟨base.max_equity, min 100 (base.max_sukuk + base.max_alternatives), 0⟩) := by
  obtain ⟨eq, sk, al⟩ := base
  constructor
  · intro hempty
    subst hempty
    unfold gate_limits
    simp
  · intro hne
    unfold gate_limits
    rw [if_pos hne]
    dsimp only
    by_cases hal : 0 < al - 0
    · rw [if_pos hal]
      rfl
    · rw [if_neg hal]
      have hal0 : al = 0 := by omega
      subst hal0
      have hmin : min 100 (sk + 0) = sk := by simp at hs; omega
      rw [hmin]

/-- A complete, valid sample submission used to witness the theorems. -/
def sampleInput : QuestionnaireInput :=
  { attitude_choices := List.replicate 12 "No strong opinion"
    emergency_months := "12+ months"
    income_stability := "Very stable (multiple reliable sources)"
    withdrawal_need := "Very unlikely"
    debt_burden := "None"
    portfolio_dependence := "Not dependent"
    alt_scope_reits := true
    alt_scope_commodities := false
    alt_equities_toggle := false
    limited_experience_gate := false }

/-- The engine's output on `sampleInput`. -/
def sampleResults : Results :=
  { risk_attitude_score := 50
    risk_attitude_band := "Balanced (45–56)"
    neutral_count := 12
    cap_points := 30
    capacity_band := "High capacity for loss"
    capacity_max_allowed_band := "Very Adventurous (80–100)"
    final_band := "Balanced (45–56)"
    override_applied := false
    base_limits := ⟨40, 60, 0⟩
    final_limits := ⟨40, 60, 0⟩
    alt_forced_zero_reasons := []
    flags := ["Many neutral answers (6+). Consider clarifying and reassessing."]
    alts_in_scope := ["Public REITs"]
    capacity_inputs :=
      { emergency_months := "12+ months"
        income_stability := "Very stable (multiple reliable sources)"
        withdrawal_need := "Very unlikely"
        debt_burden := "None"
        portfolio_dependence := "Not dependent" } }

/-- C10: for every complete input, both the base limits and the final limits
sum to exactly 100; gating never changes the equity cap; and the `min 100`
cap never truncates because every row has `max_sukuk + max_alternatives ≤ 100`. -/
theorem allocation_limits_sum_100 (inputs : QuestionnaireInput) (r : Results)
    (h : compute_results inputs = some r) :
    r.base_limits.max_equity + r.base_limits.max_sukuk + r.base_limits.max_alternatives = 100 ∧
    r.final_limits.max_equity + r.final_limits.max_sukuk + r.final_limits.max_alternatives
      = 100 ∧
    r.final_limits.max_equity = r.base_limits.max_equity ∧
    r.base_limits.max_sukuk + r.base_limits.max_alternatives ≤ 100 := by
  obtain ⟨raws, e, i, w, d, p, raw9, raw12, cmab, base,
    h1, h2, h3, h4, h5, h6, h7, h8, h9, h10, rfl⟩ := compute_results_eq_some.mp h
  have hsum := MAX_POLICY_sum h10
  have hle : base.max_sukuk + base.max_alternatives ≤ 100 := by omega
  rw [mk_base, mk_final_limits]
  by_cases hres : alt_reasons_of inputs (capacity_band_of (e + i + w + d + p)) raw9 = []
  · rw [(gate_limits_eq _ base hle).1 hres]
    exact ⟨hsum, hsum, rfl, hle⟩
  · rw [(gate_limits_eq _ base hle).2 hres]
    refine ⟨hsum, ?_, rfl, hle⟩
    dsimp only
    omega

/-- Witness for the C10 theorem at the concrete input `sampleInput`. -/
theorem allocation_limits_sum_100_witness :
    sampleResults.base_limits.max_equity + sampleResults.base_limits.max_sukuk +
        sampleResults.base_limits.max_alternatives = 100 ∧
    sampleResults.final_limits.max_equity + sampleResults.final_limits.max_sukuk +
        sampleResults.final_limits.max_alternatives = 100 ∧
    sampleResults.final_limits.max_equity = sampleResults.base_limits.max_equity ∧
    sampleResults.base_limits.max_sukuk + sampleResults.base_limits.max_alternatives ≤ 100 :=
  allocation_limits_sum_100 sampleInput sampleResults (by rfl)

/-- C4: the final band sits at the minimum of the risk-attitude band position
and the capacity-ceiling band position in the 7-band order, the override flag
is set exactly when the final band differs from the risk-attitude band, and
the final band is never more adventurous than the risk-attitude band. -/
theorem final_band_is_min (inputs : QuestionnaireInput) (r : Results)
    (h : compute_results inputs = some r) :
    BAND_ORDER.indexOf r.final_band =
      min (BAND_ORDER.indexOf r.risk_attitude_band)
        (BAND_ORDER.indexOf r.capacity_max_allowed_band) ∧
    (r.override_applied = true ↔ r.final_band ≠ r.risk_attitude_band) ∧
    BAND_ORDER.indexOf r.final_band ≤ BAND_ORDER.indexOf r.risk_attitude_band ∧
    r.final_band ∈ BAND_ORDER ∧ r.risk_attitude_band ∈ BAND_ORDER := by
  obtain ⟨raws, e, i, w, d, p, raw9, raw12, cmab, base,
    h1, h2, h3, h4, h5, h6, h7, h8, h9, h10, rfl⟩ := compute_results_eq_some.mp h
  rw [mk_final_band, mk_band, mk_override, mk_cmab]
  have hmem1 := category_from_score_mem (risk_attitude_score_of (raw_total_of raws))
  have hmem2 := CAPACITY_MAX_BAND_mem h9
  have hmin := band_at_or_below_min hmem1 hmem2
  refine ⟨hmin.1, bne_iff_ne, ?_, hmin.2, hmem1⟩
  rw [hmin.1]
  exact Nat.min_le_left _ _

/-- Witness for the C4 theorem at the concrete input `sampleInput`. -/
theorem final_band_is_min_witness :
    BAND_ORDER.indexOf sampleResults.final_band =
      min (BAND_ORDER.indexOf sampleResults.risk_attitude_band)
        (BAND_ORDER.indexOf sampleResults.capacity_max_allowed_band) ∧
    (sampleResults.override_applied = true ↔
      sampleResults.final_band ≠ sampleResults.risk_attitude_band) ∧
    BAND_ORDER.indexOf sampleResults.final_band ≤
      BAND_ORDER.indexOf sampleResults.risk_attitude_band ∧
    sampleResults.final_band ∈ BAND_ORDER ∧ sampleResults.risk_attitude_band ∈ BAND_ORDER :=
  final_band_is_min sampleInput sampleResults (by rfl)

/-- Membership in a conditional singleton. -/
theorem mem_ite_singleton {c : Prop} [Decidable c] {x a : String} :
    (a ∈ if c then [x] else ([] : List String)) ↔ c ∧ a = x := by
  split <;> simp_all

/-- Membership in the append of three conditional singletons. -/
theorem mem_three_ifs {A B C : Prop} [Decidable A] [Decidable B] [Decidable C]
    {x1 x2 x3 a : String} :
    (a ∈ (if A then [x1] else []) ++ (if B then [x2] else []) ++ (if C then [x3] else [])) ↔
      (A ∧ a = x1) ∨ (B ∧ a = x2) ∨ (C ∧ a = x3) := by
  simp only [List.mem_append, mem_ite_singleton]
  tauto

/-- The raw value of statement 9 read by the gating and flag logic agrees with
the value read directly off the input. -/
theorem stmt_raw_8_eq {inputs : QuestionnaireInput} {raws : List Nat} {raw9 : Nat}
    (h1 : attitude_raws inputs.attitude_choices = some raws) (h7 : raws[8]? = some raw9) :
    stmt_raw inputs 8 = raw9 := by
  have hga := attitude_raws_getElem h1 (show (8 : Nat) < 12 by omega)
  unfold stmt_raw
  rw [← hga, h7]
  rfl

/-- C3: the gating invariant.  When any reason fired, alternatives are forced
to 0 and the removed amount is folded into sukuk (capped at 100); with no
reason the limits are unchanged; and the reasons list is exactly the ordered
list of the conditions that actually triggered (liquidity, capacity,
experience). -/
theorem gating_invariant (inputs : QuestionnaireInput) (r : Results)
    (h : compute_results inputs = some r) :
    (r.alt_forced_zero_reasons ≠ [] →
      r.final_limits.max_alternatives = 0 ∧
      r.final_limits.max_sukuk =
        min 100 (r.base_limits.max_sukuk + r.base_limits.max_alternatives)) ∧
    (r.alt_forced_zero_reasons = [] → r.final_limits = r.base_limits) ∧
    r.alt_forced_zero_reasons =
      (if inputs.withdrawal_need = "Very likely" ∨ inputs.withdrawal_need = "Somewhat likely"
        then ["Large withdrawal likely within 3 years"] else []) ++
      (if r.capacity_band = "Low capacity for loss"
        then ["Low capacity for loss"] else []) ++
      (if inputs.limited_experience_gate = true ∧ 4 ≤ stmt_raw inputs 8
        then ["Client indicates limited investment experience"] else []) := by
  obtain ⟨raws, e, i, w, d, p, raw9, raw12, cmab, base,
    h1, h2, h3, h4, h5, h6, h7, h8, h9, h10, rfl⟩ := compute_results_eq_some.mp h
  have hraw9 := stmt_raw_8_eq h1 h7
  have hsum := MAX_POLICY_sum h10
  have hle : base.max_sukuk + base.max_alternatives ≤ 100 := by omega
  rw [mk_reasons, mk_final_limits, mk_base, mk_capacity_band, hraw9]
  refine ⟨?_, ?_, rfl⟩
  · intro hne
    rw [(gate_limits_eq _ base hle).2 hne]
    exact ⟨rfl, rfl⟩
  · intro hempty
    rw [(gate_limits_eq _ base hle).1 hempty]

/-- Witness for the C3 theorem at the concrete input `sampleInput`. -/
theorem gating_invariant_witness :
    (sampleResults.alt_forced_zero_reasons ≠ [] →
      sampleResults.final_limits.max_alternatives = 0 ∧
      sampleResults.final_limits.max_sukuk =
        min 100 (sampleResults.base_limits.max_sukuk +
          sampleResults.base_limits.max_alternatives)) ∧
    (sampleResults.alt_forced_zero_reasons = [] →
      sampleResults.final_limits = sampleResults.base_limits) ∧
    sampleResults.alt_forced_zero_reasons =
      (if sampleInput.withdrawal_need = "Very likely" ∨
          sampleInput.withdrawal_need = "Somewhat likely"
        then ["Large withdrawal likely within 3 years"] else []) ++
      (if sampleResults.capacity_band = "Low capacity for loss"
        then ["Low capacity for loss"] else []) ++
      (if sampleInput.limited_experience_gate = true ∧ 4 ≤ stmt_raw sampleInput 8
        then ["Client indicates limited investment experience"] else []) :=
  gating_invariant sampleInput sampleResults (by rfl)

/-- C1 amended: the limited-experience condition shared by the third
alternatives gate and the experience-inconsistency flag reads the 9th
attitude statement (the reverse-scored "I have limited experience with funds,
shares, or market investing."), not the 7th: it holds exactly when that
statement's raw value is at least 4. -/
theorem limited_experience_is_statement9 (inputs : QuestionnaireInput) (r : Results)
    (h : compute_results inputs = some r) :
    ("Client indicates limited investment experience" ∈ r.alt_forced_zero_reasons ↔
      inputs.limited_experience_gate = true ∧ 4 ≤ stmt_raw inputs 8) ∧
    ("High score but self-reported limited experience—consider education / simplification."
        ∈ r.flags ↔ 68 ≤ r.risk_attitude_score ∧ 4 ≤ stmt_raw inputs 8) := by
  obtain ⟨raws, e, i, w, d, p, raw9, raw12, cmab, base,
    h1, h2, h3, h4, h5, h6, h7, h8, h9, h10, rfl⟩ := compute_results_eq_some.mp h
  have hraw9 := stmt_raw_8_eq h1 h7
  rw [mk_reasons, mk_flags, mk_score, hraw9]
  unfold alt_reasons_of flags_of
  rw [mem_three_ifs, mem_three_ifs]
  constructor <;> simp

/-- Witness for the amended C1 theorem at the concrete input `sampleInput`. -/
theorem limited_experience_is_statement9_witness :
    ("Client indicates limited investment experience" ∈
        sampleResults.alt_forced_zero_reasons ↔
      sampleInput.limited_experience_gate = true ∧ 4 ≤ stmt_raw sampleInput 8) ∧
    ("High score but self-reported limited experience—consider education / simplification."
        ∈ sampleResults.flags ↔
      68 ≤ sampleResults.risk_attitude_score ∧ 4 ≤ stmt_raw sampleInput 8) :=
  limited_experience_is_statement9 sampleInput sampleResults (by rfl)

/-- Counterexample input for C1: the 7th statement is answered "Agree"
(raw 4) while the 9th is "Strongly disagree" (raw 1); the experience gate
toggle is enabled; no other gating condition holds. -/
def cexExperienceInput : QuestionnaireInput :=
  { attitude_choices :=
      ["No strong opinion", "No strong opinion", "No strong opinion", "No strong opinion",
       "No strong opinion", "No strong opinion", "Agree", "No strong opinion",
       "Strongly disagree", "No strong opinion", "No strong opinion", "No strong opinion"]
    emergency_months := "12+ months"
    income_stability := "Very stable (multiple reliable sources)"
    withdrawal_need := "Very unlikely"
    debt_burden := "None"
    portfolio_dependence := "Not dependent"
    alt_scope_reits := false
    alt_scope_commodities := false
    alt_equities_toggle := false
    limited_experience_gate := true }

/-- C1 counterexample: with the gate enabled and the 7th statement (the
investing-ease statement) at raw value 4, the engine emits no
limited-experience reason — it reads the 9th statement instead, which is at
raw value 1 here. -/
theorem limited_experience_statement7_cex :
    cexExperienceInput.limited_experience_gate = true ∧
    4 ≤ stmt_raw cexExperienceInput 6 ∧
    (compute_results cexExperienceInput).map Results.alt_forced_zero_reasons = some [] :=
  ⟨rfl, by decide, by rfl⟩

/-- Counterexample input for C2: all 12 attitude selections are
"Strongly agree", capacity answers all valid. -/
def cexAllAgreeInput : QuestionnaireInput :=
  { attitude_choices := List.replicate 12 "Strongly agree"
    emergency_months := "12+ months"
    income_stability := "Very stable (multiple reliable sources)"
    withdrawal_need := "Very unlikely"
    debt_burden := "None"
    portfolio_dependence := "Not dependent"
    alt_scope_reits := false
    alt_scope_commodities := false
    alt_equities_toggle := false
    limited_experience_gate := false }

/-- The engine's output on `cexAllAgreeInput`. -/
def cexAllAgreeResults : Results :=
  { risk_attitude_score := 42
    risk_attitude_band := "Moderately Cautious (34–44)"
    neutral_count := 0
    cap_points := 30
    capacity_band := "High capacity for loss"
    capacity_max_allowed_band := "Very Adventurous (80–100)"
    final_band := "Moderately Cautious (34–44)"
    override_applied := false
    base_limits := ⟨30, 70, 0⟩
    final_limits := ⟨30, 70, 0⟩
    alt_forced_zero_reasons := []
    flags := []
    alts_in_scope := []
    capacity_inputs :=
      { emergency_months := "12+ months"
        income_stability := "Very stable (multiple reliable sources)"
        withdrawal_need := "Very unlikely"
        debt_burden := "None"
        portfolio_dependence := "Not dependent" } }

/-- C2 counterexample: the fixed statement list has 7 reverse-tagged and 5
normal-tagged statements (not 6 and 6), and the all-"Strongly agree"
submission scores 42 (not 50). -/
theorem all_strongly_agree_cex :
    (ITEMS.filter (fun it => it.2)).length = 5 ∧
    (ITEMS.filter (fun it => !it.2)).length = 7 ∧
    (compute_results cexAllAgreeInput).map Results.risk_attitude_score = some 42 ∧
    (compute_results cexAllAgreeInput).map Results.risk_attitude_score ≠ some 50 :=
  ⟨by decide, by decide, by rfl, by decide⟩

/-- C2 amended: with the actual tagging (5 normal, 7 reverse), the
all-"Strongly agree" submission has transformed total `32` and risk-attitude
score `42`. -/
theorem all_strongly_agree_score (inputs : QuestionnaireInput) (r : Results)
    (hch : inputs.attitude_choices = List.replicate 12 "Strongly agree")
    (h : compute_results inputs = some r) :
    (ITEMS.filter (fun it => it.2)).length = 5 ∧
    (ITEMS.filter (fun it => !it.2)).length = 7 ∧
    raw_total_of (List.replicate 12 5) = 32 ∧
    r.risk_attitude_score = 42 := by
  obtain ⟨raws, e, i, w, d, p, raw9, raw12, cmab, base,
    h1, h2, h3, h4, h5, h6, h7, h8, h9, h10, rfl⟩ := compute_results_eq_some.mp h
  rw [hch] at h1
  have hval : attitude_raws (List.replicate 12 "Strongly agree") =
      some (List.replicate 12 5) := by rfl
  rw [hval] at h1
  have hr := Option.some.inj h1
  subst hr
  rw [mk_score]
  exact ⟨by decide, by decide, by rfl, by rfl⟩

/-- Witness for the amended C2 theorem at the concrete input
`cexAllAgreeInput`. -/
theorem all_strongly_agree_score_witness :
    (ITEMS.filter (fun it => it.2)).length = 5 ∧
    (ITEMS.filter (fun it => !it.2)).length = 7 ∧
    raw_total_of (List.replicate 12 5) = 32 ∧
    cexAllAgreeResults.risk_attitude_score = 42 :=
  all_strongly_agree_score cexAllAgreeInput cexAllAgreeResults rfl (by rfl)

/-- Raw Likert values are between 1 and 5. -/
theorem LIKERT_TO_NUM_bounds {c : String} {n : Nat} (h : LIKERT_TO_NUM c = some n) :
    1 ≤ n ∧ n ≤ 5 := by
  unfold LIKERT_TO_NUM at h
  split at h <;> first
    | exact Option.noConfusion h
    | (rw [← Option.some.inj h]; omega)

/-- Every element of a `zipWith` comes from a pair of elements. -/
theorem zipWith_mem {α β γ : Type} {f : α → β → γ} :
    ∀ {l1 : List α} {l2 : List β} {c : γ}, c ∈ List.zipWith f l1 l2 →
      ∃ a b, a ∈ l1 ∧ b ∈ l2 ∧ c = f a b := by
  intro l1
  induction l1 with
  | nil => intro l2 c hc; simp at hc
  | cons a t ih =>
    intro l2 c hc
    cases l2 with
    | nil => simp at hc
    | cons b t2 =>
      simp only [List.zipWith_cons_cons, List.mem_cons] at hc
      rcases hc with rfl | hc
      · exact ⟨a, b, by simp, by simp, rfl⟩
      · obtain ⟨x, y, hx, hy, rfl⟩ := ih hc
        exact ⟨x, y, List.mem_cons_of_mem _ hx, List.mem_cons_of_mem _ hy, rfl⟩

/-- The transformed total of a successfully read submission is at most 60. -/
theorem raw_total_of_le {choices : List String} {raws : List Nat}
    (h : attitude_raws choices = some raws) : raw_total_of raws ≤ 60 := by
  unfold raw_total_of
  have hbound : ∀ x ∈ List.zipWith
      (fun is_normal raw => if is_normal then raw else 6 - raw)
      (ITEMS.map Prod.snd) raws, x ≤ 5 := by
    intro x hx
    obtain ⟨t, raw, _, hraw, rfl⟩ := zipWith_mem hx
    obtain ⟨q, _, hq⟩ := mapM_option_mem_rev h raw hraw
    have hb := LIKERT_TO_NUM_bounds hq
    cases t <;> simp <;> omega
  have hsum := List.sum_le_card_nsmul _ 5 hbound
  have hlen : (List.zipWith (fun is_normal raw => if is_normal then raw else 6 - raw)
      (ITEMS.map Prod.snd) raws).length ≤ 12 := by
    rw [List.length_zipWith]
    have : (ITEMS.map Prod.snd).length = 12 := by rfl
    omega
  have : (List.zipWith (fun is_normal raw => if is_normal then raw else 6 - raw)
      (ITEMS.map Prod.snd) raws).length • 5 ≤ 60 := by
    rw [smul_eq_mul]
    omega
  omega

/-- The normalised score never exceeds 100 when the total is at most 60. -/
theorem round_half_to_even_le_100 {n : Nat} (hn : n ≤ 4800) :
    round_half_to_even n 48 ≤ 100 := by
  unfold round_half_to_even
  split
  · omega
  · split
    · omega
    · split <;> omega

/-- Contribution of one statement as the specification words it: the raw
value for a normal-tagged statement, `6 - raw` for a reverse-tagged one. -/
def specStmtTerm (inputs : QuestionnaireInput) (k : Nat) : Nat :=
  if (ITEMS.getD k ("", true)).2 then stmt_raw inputs k else 6 - stmt_raw inputs k

/-- Transformed total as the specification words it: the sum over the 12
statements of the transformed raw values. -/
def specRawTotal (inputs : QuestionnaireInput) : Nat :=
  specStmtTerm inputs 0 + specStmtTerm inputs 1 + specStmtTerm inputs 2 +
  specStmtTerm inputs 3 + specStmtTerm inputs 4 + specStmtTerm inputs 5 +
  specStmtTerm inputs 6 + specStmtTerm inputs 7 + specStmtTerm inputs 8 +
  specStmtTerm inputs 9 + specStmtTerm inputs 10 + specStmtTerm inputs 11

/-- Band thresholds as the specification words them: inclusive upper bounds
25, 33, 44, 56, 67, 79. -/
def specBandOf (score : Nat) : String :=
  if score ≤ 25 then "Very Cautious (0–25)"
  else if score ≤ 33 then "Cautious (26–33)"
  else if score ≤ 44 then "Moderately Cautious (34–44)"
  else if score ≤ 56 then "Balanced (45–56)"
  else if score ≤ 67 then "Moderately Adventurous (57–67)"
  else if score ≤ 79 then "Adventurous (68–79)"
  else "Very Adventurous (80–100)"

/-- C5: the risk-attitude score is `round((rawTotal - 12) / 48 * 100)` (with
Python's round-half-to-even) of the spec-side transformed total, it lies in
[0, 100], and the band is read off the inclusive upper bounds. -/
theorem risk_attitude_score_spec (inputs : QuestionnaireInput) (r : Results)
    (h : compute_results inputs = some r) :
    r.risk_attitude_score = round_half_to_even ((specRawTotal inputs - 12) * 100) 48 ∧
    r.risk_attitude_score ≤ 100 ∧
    r.risk_attitude_band = specBandOf r.risk_attitude_score := by
  obtain ⟨raws, e, i, w, d, p, raw9, raw12, cmab, base,
    h1, h2, h3, h4, h5, h6, h7, h8, h9, h10, rfl⟩ := compute_results_eq_some.mp h
  have hsr : ∀ k : Nat, k < 12 → stmt_raw inputs k = raws.getD k 0 := by
    intro k hk
    have hga := attitude_raws_getElem h1 hk
    unfold stmt_raw
    rw [← hga, List.getD_eq_getElem?_getD]
  have hlen := attitude_raws_length_of_12 h1 h8
  have hle60 := raw_total_of_le h1
  have hbridge : raw_total_of raws = specRawTotal inputs := by
    unfold specRawTotal specStmtTerm
    rw [hsr 0 (by omega), hsr 1 (by omega), hsr 2 (by omega), hsr 3 (by omega),
      hsr 4 (by omega), hsr 5 (by omega), hsr 6 (by omega), hsr 7 (by omega),
      hsr 8 (by omega), hsr 9 (by omega), hsr 10 (by omega), hsr 11 (by omega)]
    rcases raws with _ | ⟨a0, _ | ⟨a1, _ | ⟨a2, _ | ⟨a3, _ | ⟨a4, _ | ⟨a5, _ | ⟨a6,
      _ | ⟨a7, _ | ⟨a8, _ | ⟨a9, _ | ⟨a10, _ | ⟨a11, rest⟩⟩⟩⟩⟩⟩⟩⟩⟩⟩⟩⟩ <;>
      simp only [List.length_nil, List.length_cons] at hlen <;> try omega
    have hrest : rest = [] := by
      have : rest.length = 0 := by omega
      exact List.eq_nil_of_length_eq_zero this
    subst hrest
    show raw_total_of [a0, a1, a2, a3, a4, a5, a6, a7, a8, a9, a10, a11] = _
    unfold raw_total_of
    simp [ITEMS]
    omega
  rw [mk_score, mk_band]
  refine ⟨?_, ?_, ?_⟩
  · rw [← hbridge]
    rfl
  · exact round_half_to_even_le_100 (by unfold risk_attitude_score_of at *; omega)
  · rfl

/-- Witness for the C5 theorem at the concrete input `sampleInput`. -/
theorem risk_attitude_score_spec_witness :
    sampleResults.risk_attitude_score =
      round_half_to_even ((specRawTotal sampleInput - 12) * 100) 48 ∧
    sampleResults.risk_attitude_score ≤ 100 ∧
    sampleResults.risk_attitude_band = specBandOf sampleResults.risk_attitude_score :=
  risk_attitude_score_spec sampleInput sampleResults (by rfl)

/-- Sub-scores of `emergency_months` are even and at most 6. -/
theorem EMERGENCY_SCORE_range {s : String} {x : Nat} (h : EMERGENCY_SCORE s = some x) :
    x % 2 = 0 ∧ x ≤ 6 := by
  unfold EMERGENCY_SCORE at h
  split at h <;> first
    | exact Option.noConfusion h
    | (rw [← Option.some.inj h]; omega)

/-- Sub-scores of `income_stability` are even and at most 6. -/
theorem INCOME_SCORE_range {s : String} {x : Nat} (h : INCOME_SCORE s = some x) :
    x % 2 = 0 ∧ x ≤ 6 := by
  unfold INCOME_SCORE at h
  split at h <;> first
    | exact Option.noConfusion h
    | (rw [← Option.some.inj h]; omega)

/-- Sub-scores of `withdrawal_need` are even and at most 6. -/
theorem WITHDRAWAL_SCORE_range {s : String} {x : Nat} (h : WITHDRAWAL_SCORE s = some x) :
    x % 2 = 0 ∧ x ≤ 6 := by
  unfold WITHDRAWAL_SCORE at h
  split at h <;> first
    | exact Option.noConfusion h
    | (rw [← Option.some.inj h]; omega)

/-- Sub-scores of `debt_burden` are even and at most 6. -/
theorem DEBT_SCORE_range {s : String} {x : Nat} (h : DEBT_SCORE s = some x) :
    x % 2 = 0 ∧ x ≤ 6 := by
  unfold DEBT_SCORE at h
  split at h <;> first
    | exact Option.noConfusion h
    | (rw [← Option.some.inj h]; omega)

/-- Sub-scores of `portfolio_dependence` are even and at most 6. -/
theorem DEPENDENCE_SCORE_range {s : String} {x : Nat} (h : DEPENDENCE_SCORE s = some x) :
    x % 2 = 0 ∧ x ≤ 6 := by
  unfold DEPENDENCE_SCORE at h
  split at h <;> first
    | exact Option.noConfusion h
    | (rw [← Option.some.inj h]; omega)

/-- Each capacity table assigns score `2 * k` to the k-th option of its
enumeration (options ordered from lowest to highest capacity): the four
values are 0, 2, 4, 6, increasing with capacity. -/
theorem capacity_tables : ∀ k : Fin 4,
    EMERGENCY_SCORE (EMERGENCY_OPTIONS.getD (k : Nat) "") = some (2 * (k : Nat)) ∧
    INCOME_SCORE (INCOME_OPTIONS.getD (k : Nat) "") = some (2 * (k : Nat)) ∧
    WITHDRAWAL_SCORE (WITHDRAWAL_OPTIONS.getD (k : Nat) "") = some (2 * (k : Nat)) ∧
    DEBT_SCORE (DEBT_OPTIONS.getD (k : Nat) "") = some (2 * (k : Nat)) ∧
    DEPENDENCE_SCORE (DEPENDENCE_OPTIONS.getD (k : Nat) "") = some (2 * (k : Nat)) := by
  decide

/-- Capacity points as the specification words them: the sum of the five
sub-scores looked up in the per-dimension tables. -/
def spec_cap_points (inputs : QuestionnaireInput) : Nat :=
  (EMERGENCY_SCORE inputs.emergency_months).getD 0 +
  (INCOME_SCORE inputs.income_stability).getD 0 +
  (WITHDRAWAL_SCORE inputs.withdrawal_need).getD 0 +
  (DEBT_SCORE inputs.debt_burden).getD 0 +
  (DEPENDENCE_SCORE inputs.portfolio_dependence).getD 0

/-- C6: each of the five capacity answers scores one of {0, 2, 4, 6},
increasing with capacity; the points are their sum (an even integer of at
most 30); the band uses inclusive thresholds 10 and 20; and the ceiling band
is the fixed per-band lookup. -/
theorem capacity_scoring_spec (inputs : QuestionnaireInput) (r : Results)
    (h : compute_results inputs = some r) :
    (∀ k : Fin 4,
      EMERGENCY_SCORE (EMERGENCY_OPTIONS.getD (k : Nat) "") = some (2 * (k : Nat)) ∧
      INCOME_SCORE (INCOME_OPTIONS.getD (k : Nat) "") = some (2 * (k : Nat)) ∧
      WITHDRAWAL_SCORE (WITHDRAWAL_OPTIONS.getD (k : Nat) "") = some (2 * (k : Nat)) ∧
      DEBT_SCORE (DEBT_OPTIONS.getD (k : Nat) "") = some (2 * (k : Nat)) ∧
      DEPENDENCE_SCORE (DEPENDENCE_OPTIONS.getD (k : Nat) "") = some (2 * (k : Nat))) ∧
    r.cap_points = spec_cap_points inputs ∧
    r.cap_points % 2 = 0 ∧
    r.cap_points ≤ 30 ∧
    r.capacity_band =
      (if r.cap_points ≤ 10 then "Low capacity for loss"
       else if r.cap_points ≤ 20 then "Medium capacity for loss"
       else "High capacity for loss") ∧
    (r.capacity_band = "Low capacity for loss" →
      r.capacity_max_allowed_band = "Moderately Cautious (34–44)") ∧
    (r.capacity_band = "Medium capacity for loss" →
      r.capacity_max_allowed_band = "Balanced (45–56)") ∧
    (r.capacity_band = "High capacity for loss" →
      r.capacity_max_allowed_band = "Very Adventurous (80–100)") := by
  obtain ⟨raws, e, i, w, d, p, raw9, raw12, cmab, base,
    h1, h2, h3, h4, h5, h6, h7, h8, h9, h10, rfl⟩ := compute_results_eq_some.mp h
  have hre := EMERGENCY_SCORE_range h2
  have hri := INCOME_SCORE_range h3
  have hrw := WITHDRAWAL_SCORE_range h4
  have hrd := DEBT_SCORE_range h5
  have hrp := DEPENDENCE_SCORE_range h6
  rw [mk_cap_points, mk_capacity_band, mk_cmab]
  refine ⟨capacity_tables, ?_, by omega, by omega, ?_, ?_, ?_, ?_⟩
  · unfold spec_cap_points
    rw [h2, h3, h4, h5, h6]
    rfl
  · unfold capacity_band_of
    rfl
  · intro hb
    rw [hb] at h9
    have h9' : some "Moderately Cautious (34–44)" = some cmab := h9
    exact (Option.some.inj h9').symm
  · intro hb
    rw [hb] at h9
    have h9' : some "Balanced (45–56)" = some cmab := h9
    exact (Option.some.inj h9').symm
  · intro hb
    rw [hb] at h9
    have h9' : some "Very Adventurous (80–100)" = some cmab := h9
    exact (Option.some.inj h9').symm

/-- Witness for the C6 theorem at the concrete input `sampleInput`. -/
theorem capacity_scoring_spec_witness :
    (∀ k : Fin 4,
      EMERGENCY_SCORE (EMERGENCY_OPTIONS.getD (k : Nat) "") = some (2 * (k : Nat)) ∧
      INCOME_SCORE (INCOME_OPTIONS.getD (k : Nat) "") = some (2 * (k : Nat)) ∧
      WITHDRAWAL_SCORE (WITHDRAWAL_OPTIONS.getD (k : Nat) "") = some (2 * (k : Nat)) ∧
      DEBT_SCORE (DEBT_OPTIONS.getD (k : Nat) "") = some (2 * (k : Nat)) ∧
      DEPENDENCE_SCORE (DEPENDENCE_OPTIONS.getD (k : Nat) "") = some (2 * (k : Nat))) ∧
    sampleResults.cap_points = spec_cap_points sampleInput ∧
    sampleResults.cap_points % 2 = 0 ∧
    sampleResults.cap_points ≤ 30 ∧
    sampleResults.capacity_band =
      (if sampleResults.cap_points ≤ 10 then "Low capacity for loss"
       else if sampleResults.cap_points ≤ 20 then "Medium capacity for loss"
       else "High capacity for loss") ∧
    (sampleResults.capacity_band = "Low capacity for loss" →
      sampleResults.capacity_max_allowed_band = "Moderately Cautious (34–44)") ∧
    (sampleResults.capacity_band = "Medium capacity for loss" →
      sampleResults.capacity_max_allowed_band = "Balanced (45–56)") ∧
    (sampleResults.capacity_band = "High capacity for loss" →
      sampleResults.capacity_max_allowed_band = "Very Adventurous (80–100)") :=
  capacity_scoring_spec sampleInput sampleResults (by rfl)

/-- The capacity points of a successful run are the sum of the five looked-up
sub-scores. -/
theorem cap_points_eq {inputs : QuestionnaireInput} {r : Results}
    (h : compute_results inputs = some r) : r.cap_points = spec_cap_points inputs := by
  obtain ⟨raws, e, i, w, d, p, raw9, raw12, cmab, base,
    h1, h2, h3, h4, h5, h6, h7, h8, h9, h10, rfl⟩ := compute_results_eq_some.mp h
  rw [mk_cap_points]
  unfold spec_cap_points
  rw [h2, h3, h4, h5, h6]
  rfl

/-- Capacity band and ceiling positions are monotone in the points, at the
level of engine outputs. -/
theorem capacity_mono_core {i1 i2 : QuestionnaireInput} {r1 r2 : Results}
    (h1 : compute_results i1 = some r1) (h2 : compute_results i2 = some r2)
    (hp : r1.cap_points ≤ r2.cap_points) :
    CAPACITY_ORDER.indexOf r1.capacity_band ≤ CAPACITY_ORDER.indexOf r2.capacity_band ∧
    BAND_ORDER.indexOf r1.capacity_max_allowed_band ≤
      BAND_ORDER.indexOf r2.capacity_max_allowed_band := by
  obtain ⟨raws1, e1, i1s, w1, d1, p1, raw9a, raw12a, cmab1, base1,
    g1, g2, g3, g4, g5, g6, g7, g8, g9, g10, rfl⟩ := compute_results_eq_some.mp h1
  obtain ⟨raws2, e2, i2s, w2, d2, p2, raw9b, raw12b, cmab2, base2,
    k1, k2, k3, k4, k5, k6, k7, k8, k9, k10, rfl⟩ := compute_results_eq_some.mp h2
  rw [mk_cap_points, mk_cap_points] at hp
  rw [mk_capacity_band, mk_capacity_band, mk_cmab, mk_cmab]
  exact ⟨capacity_band_mono hp, cmab_mono hp g9 k9⟩

/-- Replacing the emergency-fund answer by a higher-capacity option never
decreases the spec-side points. -/
theorem spec_cap_points_emergency_mono (inputs : QuestionnaireInput) {a b : Nat}
    (hab : a ≤ b) (hb4 : b < 4) :
    spec_cap_points { inputs with emergency_months := EMERGENCY_OPTIONS.getD a "" } ≤
      spec_cap_points { inputs with emergency_months := EMERGENCY_OPTIONS.getD b "" } := by
  have hta : EMERGENCY_SCORE (EMERGENCY_OPTIONS.getD a "") = some (2 * a) :=
    (capacity_tables ⟨a, by omega⟩).1
  have htb : EMERGENCY_SCORE (EMERGENCY_OPTIONS.getD b "") = some (2 * b) :=
    (capacity_tables ⟨b, hb4⟩).1
  unfold spec_cap_points
  dsimp only
  rw [hta, htb]
  dsimp only [Option.getD]
  omega

/-- Replacing the income-stability answer by a higher-capacity option never
decreases the spec-side points. -/
theorem spec_cap_points_income_mono (inputs : QuestionnaireInput) {a b : Nat}
    (hab : a ≤ b) (hb4 : b < 4) :
    spec_cap_points { inputs with income_stability := INCOME_OPTIONS.getD a "" } ≤
      spec_cap_points { inputs with income_stability := INCOME_OPTIONS.getD b "" } := by
  have hta : INCOME_SCORE (INCOME_OPTIONS.getD a "") = some (2 * a) :=
    (capacity_tables ⟨a, by omega⟩).2.1
  have htb : INCOME_SCORE (INCOME_OPTIONS.getD b "") = some (2 * b) :=
    (capacity_tables ⟨b, hb4⟩).2.1
  unfold spec_cap_points
  dsimp only
  rw [hta, htb]
  dsimp only [Option.getD]
  omega

/-- Replacing the withdrawal-likelihood answer by a higher-capacity option
never decreases the spec-side points. -/
theorem spec_cap_points_withdrawal_mono (inputs : QuestionnaireInput) {a b : Nat}
    (hab : a ≤ b) (hb4 : b < 4) :
    spec_cap_points { inputs with withdrawal_need := WITHDRAWAL_OPTIONS.getD a "" } ≤
      spec_cap_points { inputs with withdrawal_need := WITHDRAWAL_OPTIONS.getD b "" } := by
  have hta : WITHDRAWAL_SCORE (WITHDRAWAL_OPTIONS.getD a "") = some (2 * a) :=
    (capacity_tables ⟨a, by omega⟩).2.2.1
  have htb : WITHDRAWAL_SCORE (WITHDRAWAL_OPTIONS.getD b "") = some (2 * b) :=
    (capacity_tables ⟨b, hb4⟩).2.2.1
  unfold spec_cap_points
  dsimp only
  rw [hta, htb]
  dsimp only [Option.getD]
  omega

/-- Replacing the debt-burden answer by a higher-capacity option never
decreases the spec-side points. -/
theorem spec_cap_points_debt_mono (inputs : QuestionnaireInput) {a b : Nat}
    (hab : a ≤ b) (hb4 : b < 4) :
    spec_cap_points { inputs with debt_burden := DEBT_OPTIONS.getD a "" } ≤
      spec_cap_points { inputs with debt_burden := DEBT_OPTIONS.getD b "" } := by
  have hta : DEBT_SCORE (DEBT_OPTIONS.getD a "") = some (2 * a) :=
    (capacity_tables ⟨a, by omega⟩).2.2.2.1
  have htb : DEBT_SCORE (DEBT_OPTIONS.getD b "") = some (2 * b) :=
    (capacity_tables ⟨b, hb4⟩).2.2.2.1
  unfold spec_cap_points
  dsimp only
  rw [hta, htb]
  dsimp only [Option.getD]
  omega

/-- Replacing the portfolio-dependence answer by a higher-capacity option
never decreases the spec-side points. -/
theorem spec_cap_points_dependence_mono (inputs : QuestionnaireInput) {a b : Nat}
    (hab : a ≤ b) (hb4 : b < 4) :
    spec_cap_points { inputs with portfolio_dependence := DEPENDENCE_OPTIONS.getD a "" } ≤
      spec_cap_points { inputs with portfolio_dependence := DEPENDENCE_OPTIONS.getD b "" } := by
  have hta : DEPENDENCE_SCORE (DEPENDENCE_OPTIONS.getD a "") = some (2 * a) :=
    (capacity_tables ⟨a, by omega⟩).2.2.2.2
  have htb : DEPENDENCE_SCORE (DEPENDENCE_OPTIONS.getD b "") = some (2 * b) :=
    (capacity_tables ⟨b, hb4⟩).2.2.2.2
  unfold spec_cap_points
  dsimp only
  rw [hta, htb]
  dsimp only [Option.getD]
  omega

/-- C7: replacing any single capacity answer by a higher-capacity option of
its enumerated set (holding all other inputs fixed) never decreases the
capacity points, never decreases the capacity band (Low < Medium < High), and
never moves the allowed-band ceiling toward a more cautious band. -/
theorem capacity_monotonicity (inputs : QuestionnaireInput) (a b : Nat)
    (hab : a ≤ b) (hb4 : b < 4) (r1 r2 : Results) :
    (compute_results { inputs with emergency_months := EMERGENCY_OPTIONS.getD a "" } = some r1 →
      compute_results { inputs with emergency_months := EMERGENCY_OPTIONS.getD b "" } = some r2 →
      r1.cap_points ≤ r2.cap_points ∧
      CAPACITY_ORDER.indexOf r1.capacity_band ≤ CAPACITY_ORDER.indexOf r2.capacity_band ∧
      BAND_ORDER.indexOf r1.capacity_max_allowed_band ≤
        BAND_ORDER.indexOf r2.capacity_max_allowed_band) ∧
    (compute_results { inputs with income_stability := INCOME_OPTIONS.getD a "" } = some r1 →
      compute_results { inputs with income_stability := INCOME_OPTIONS.getD b "" } = some r2 →
      r1.cap_points ≤ r2.cap_points ∧
      CAPACITY_ORDER.indexOf r1.capacity_band ≤ CAPACITY_ORDER.indexOf r2.capacity_band ∧
      BAND_ORDER.indexOf r1.capacity_max_allowed_band ≤
        BAND_ORDER.indexOf r2.capacity_max_allowed_band) ∧
    (compute_results { inputs with withdrawal_need := WITHDRAWAL_OPTIONS.getD a "" } = some r1 →
      compute_results { inputs with withdrawal_need := WITHDRAWAL_OPTIONS.getD b "" } = some r2 →
      r1.cap_points ≤ r2.cap_points ∧
      CAPACITY_ORDER.indexOf r1.capacity_band ≤ CAPACITY_ORDER.indexOf r2.capacity_band ∧
      BAND_ORDER.indexOf r1.capacity_max_allowed_band ≤
        BAND_ORDER.indexOf r2.capacity_max_allowed_band) ∧
    (compute_results { inputs with debt_burden := DEBT_OPTIONS.getD a "" } = some r1 →
      compute_results { inputs with debt_burden := DEBT_OPTIONS.getD b "" } = some r2 →
      r1.cap_points ≤ r2.cap_points ∧
      CAPACITY_ORDER.indexOf r1.capacity_band ≤ CAPACITY_ORDER.indexOf r2.capacity_band ∧
      BAND_ORDER.indexOf r1.capacity_max_allowed_band ≤
        BAND_ORDER.indexOf r2.capacity_max_allowed_band) ∧
    (compute_results { inputs with portfolio_dependence := DEPENDENCE_OPTIONS.getD a "" }
        = some r1 →
      compute_results { inputs with portfolio_dependence := DEPENDENCE_OPTIONS.getD b "" }
        = some r2 →
      r1.cap_points ≤ r2.cap_points ∧
      CAPACITY_ORDER.indexOf r1.capacity_band ≤ CAPACITY_ORDER.indexOf r2.capacity_band ∧
      BAND_ORDER.indexOf r1.capacity_max_allowed_band ≤
        BAND_ORDER.indexOf r2.capacity_max_allowed_band) := by
  refine ⟨?_, ?_, ?_, ?_, ?_⟩ <;> intro hc1 hc2
  · have hpts : r1.cap_points ≤ r2.cap_points := by
      rw [cap_points_eq hc1, cap_points_eq hc2]
      exact spec_cap_points_emergency_mono inputs hab hb4
    exact ⟨hpts, capacity_mono_core hc1 hc2 hpts⟩
  · have hpts : r1.cap_points ≤ r2.cap_points := by
      rw [cap_points_eq hc1, cap_points_eq hc2]
      exact spec_cap_points_income_mono inputs hab hb4
    exact ⟨hpts, capacity_mono_core hc1 hc2 hpts⟩
  · have hpts : r1.cap_points ≤ r2.cap_points := by
      rw [cap_points_eq hc1, cap_points_eq hc2]
      exact spec_cap_points_withdrawal_mono inputs hab hb4
    exact ⟨hpts, capacity_mono_core hc1 hc2 hpts⟩
  · have hpts : r1.cap_points ≤ r2.cap_points := by
      rw [cap_points_eq hc1, cap_points_eq hc2]
      exact spec_cap_points_debt_mono inputs hab hb4
    exact ⟨hpts, capacity_mono_core hc1 hc2 hpts⟩
  · have hpts : r1.cap_points ≤ r2.cap_points := by
      rw [cap_points_eq hc1, cap_points_eq hc2]
      exact spec_cap_points_dependence_mono inputs hab hb4
    exact ⟨hpts, capacity_mono_core hc1 hc2 hpts⟩

/-- The engine's output on `sampleInput` with the emergency answer lowered to
its lowest-capacity option. -/
def sampleLowEmergencyResults : Results :=
  { sampleResults with
    cap_points := 24
    capacity_inputs :=
      { emergency_months := "< 3 months"
        income_stability := "Very stable (multiple reliable sources)"
        withdrawal_need := "Very unlikely"
        debt_burden := "None"
        portfolio_dependence := "Not dependent" } }

/-- Witness for the C7 theorem: lowering the emergency answer from option 3
to option 0 at the concrete input `sampleInput`. -/
theorem capacity_monotonicity_witness :
    sampleLowEmergencyResults.cap_points ≤ sampleResults.cap_points ∧
    CAPACITY_ORDER.indexOf sampleLowEmergencyResults.capacity_band ≤
      CAPACITY_ORDER.indexOf sampleResults.capacity_band ∧
    BAND_ORDER.indexOf sampleLowEmergencyResults.capacity_max_allowed_band ≤
      BAND_ORDER.indexOf sampleResults.capacity_max_allowed_band :=
  (capacity_monotonicity sampleInput 0 3 (by omega) (by omega)
    sampleLowEmergencyResults sampleResults).1 (by rfl) (by rfl)

/-- A Likert label maps to no value exactly when it is outside the
enumeration. -/
theorem LIKERT_TO_NUM_eq_none {c : String} : LIKERT_TO_NUM c = none ↔ c ∉ LIKERT := by
  unfold LIKERT_TO_NUM LIKERT
  split <;> simp_all

/-- An emergency answer scores nothing exactly when out of enumeration. -/
theorem EMERGENCY_SCORE_eq_none {s : String} :
    EMERGENCY_SCORE s = none ↔ s ∉ EMERGENCY_OPTIONS := by
  unfold EMERGENCY_SCORE EMERGENCY_OPTIONS
  split <;> simp_all

/-- An income answer scores nothing exactly when out of enumeration. -/
theorem INCOME_SCORE_eq_none {s : String} :
    INCOME_SCORE s = none ↔ s ∉ INCOME_OPTIONS := by
  unfold INCOME_SCORE INCOME_OPTIONS
  split <;> simp_all

/-- A withdrawal answer scores nothing exactly when out of enumeration. -/
theorem WITHDRAWAL_SCORE_eq_none {s : String} :
    WITHDRAWAL_SCORE s = none ↔ s ∉ WITHDRAWAL_OPTIONS := by
  unfold WITHDRAWAL_SCORE WITHDRAWAL_OPTIONS
  split <;> simp_all

/-- A debt answer scores nothing exactly when out of enumeration. -/
theorem DEBT_SCORE_eq_none {s : String} :
    DEBT_SCORE s = none ↔ s ∉ DEBT_OPTIONS := by
  unfold DEBT_SCORE DEBT_OPTIONS
  split <;> simp_all

/-- A dependence answer scores nothing exactly when out of enumeration. -/
theorem DEPENDENCE_SCORE_eq_none {s : String} :
    DEPENDENCE_SCORE s = none ↔ s ∉ DEPENDENCE_OPTIONS := by
  unfold DEPENDENCE_SCORE DEPENDENCE_OPTIONS
  split <;> simp_all

/-- C8: on a complete submission (12 Likert selections) in which some Likert
selection or some capacity answer lies outside its fixed enumerated set, the
engine fails (`none`, the `InvalidInput` failure) and produces no `Results`:
there is no partial success. -/
theorem invalid_input_fails (inputs : QuestionnaireInput)
    (hlen : inputs.attitude_choices.length = 12)
    (hbad :
      (∃ c ∈ inputs.attitude_choices, c ∉ LIKERT) ∨
      inputs.emergency_months ∉ EMERGENCY_OPTIONS ∨
      inputs.income_stability ∉ INCOME_OPTIONS ∨
      inputs.withdrawal_need ∉ WITHDRAWAL_OPTIONS ∨
      inputs.debt_burden ∉ DEBT_OPTIONS ∨
      inputs.portfolio_dependence ∉ DEPENDENCE_OPTIONS) :
    compute_results inputs = none := by
  cases hopt : compute_results inputs with
  | none => rfl
  | some r =>
    exfalso
    obtain ⟨raws, e, i, w, d, p, raw9, raw12, cmab, base,
      h1, h2, h3, h4, h5, h6, h7, h8, h9, h10, _⟩ := compute_results_eq_some.mp hopt
    rcases hbad with ⟨c, hc, hcbad⟩ | hbad | hbad | hbad | hbad | hbad
    · obtain ⟨k, hk⟩ := List.mem_iff_getElem?.mp hc
      have hklt : k < 12 := by
        obtain ⟨hlt, _⟩ := List.getElem?_eq_some.mp hk
        omega
      have hkl : k < ITEMS.length := by
        rw [show ITEMS.length = 12 from rfl]
        omega
      have hit : ITEMS[k]? = some (ITEMS.getD k ("", true)) := by
        rw [List.getD_eq_getElem?_getD, List.getElem?_eq_getElem hkl]
        rfl
      have hzip : (ITEMS.zip inputs.attitude_choices)[k]? =
          some (ITEMS.getD k ("", true), c) := by
        rw [zip_getElem, hit, hk]
        rfl
      have hmem : (ITEMS.getD k ("", true), c) ∈ ITEMS.zip inputs.attitude_choices :=
        List.mem_iff_getElem?.mpr ⟨k, hzip⟩
      obtain ⟨b, hb⟩ := mapM_option_mem h1 _ hmem
      rw [LIKERT_TO_NUM_eq_none.mpr hcbad] at hb
      exact Option.noConfusion hb
    · rw [EMERGENCY_SCORE_eq_none.mpr hbad] at h2
      exact Option.noConfusion h2
    · rw [INCOME_SCORE_eq_none.mpr hbad] at h3
      exact Option.noConfusion h3
    · rw [WITHDRAWAL_SCORE_eq_none.mpr hbad] at h4
      exact Option.noConfusion h4
    · rw [DEBT_SCORE_eq_none.mpr hbad] at h5
      exact Option.noConfusion h5
    · rw [DEPENDENCE_SCORE_eq_none.mpr hbad] at h6
      exact Option.noConfusion h6

/-- An invalid concrete submission: the debt answer is out of enumeration. -/
def invalidDebtInput : QuestionnaireInput :=
  { sampleInput with debt_burden := "A manageable amount" }

/-- Witness for the C8 theorem at the concrete input `invalidDebtInput`. -/
theorem invalid_input_fails_witness : compute_results invalidDebtInput = none :=
  invalid_input_fails invalidDebtInput (by decide) (by decide)

/-- C9: changing only the three scope toggles changes no field of the results
other than `alts_in_scope`, which lists the three labels in fixed order, one
per enabled toggle. -/
theorem scope_toggles_affect_only_scope (inputs : QuestionnaireInput) (b1 b2 b3 : Bool)
    (r1 r2 : Results)
    (h1 : compute_results inputs = some r1)
    (h2 : compute_results
      { inputs with
        alt_scope_reits := b1
        alt_scope_commodities := b2
        alt_equities_toggle := b3 } = some r2) :
    r2.risk_attitude_score = r1.risk_attitude_score ∧
    r2.risk_attitude_band = r1.risk_attitude_band ∧
    r2.neutral_count = r1.neutral_count ∧
    r2.cap_points = r1.cap_points ∧
    r2.capacity_band = r1.capacity_band ∧
    r2.capacity_max_allowed_band = r1.capacity_max_allowed_band ∧
    r2.final_band = r1.final_band ∧
    r2.override_applied = r1.override_applied ∧
    r2.base_limits = r1.base_limits ∧
    r2.final_limits = r1.final_limits ∧
    r2.alt_forced_zero_reasons = r1.alt_forced_zero_reasons ∧
    r2.flags = r1.flags ∧
    r2.capacity_inputs = r1.capacity_inputs ∧
    r2.alts_in_scope =
      (if b1 = true then ["Public REITs"] else []) ++
      (if b2 = true then ["Commodity funds"] else []) ++
      (if b3 = true then
        ["Selected equities treated as 'alternative-like' (internal classification)"]
        else []) := by
  obtain ⟨raws1, e1, i1, w1, d1, p1, raw9a, raw12a, cmab1, base1,
    g1, g2, g3, g4, g5, g6, g7, g8, g9, g10, rfl⟩ := compute_results_eq_some.mp h1
  obtain ⟨raws2, e2, i2, w2, d2, p2, raw9b, raw12b, cmab2, base2,
    k1, k2, k3, k4, k5, k6, k7, k8, k9, k10, rfl⟩ := compute_results_eq_some.mp h2
  dsimp only at k1 k2 k3 k4 k5 k6
  obtain rfl : raws1 = raws2 := Option.some.inj (g1.symm.trans k1)
  obtain rfl : e1 = e2 := Option.some.inj (g2.symm.trans k2)
  obtain rfl : i1 = i2 := Option.some.inj (g3.symm.trans k3)
  obtain rfl : w1 = w2 := Option.some.inj (g4.symm.trans k4)
  obtain rfl : d1 = d2 := Option.some.inj (g5.symm.trans k5)
  obtain rfl : p1 = p2 := Option.some.inj (g6.symm.trans k6)
  obtain rfl : raw9a = raw9b := Option.some.inj (g7.symm.trans k7)
  obtain rfl : raw12a = raw12b := Option.some.inj (g8.symm.trans k8)
  obtain rfl : cmab1 = cmab2 := Option.some.inj (g9.symm.trans k9)
  obtain rfl : base1 = base2 := Option.some.inj (g10.symm.trans k10)
  rw [mk_score, mk_score, mk_band, mk_band, mk_neutral, mk_neutral,
    mk_cap_points, mk_cap_points, mk_capacity_band, mk_capacity_band,
    mk_cmab, mk_cmab, mk_final_band, mk_final_band, mk_override, mk_override,
    mk_base, mk_base, mk_final_limits, mk_final_limits, mk_reasons, mk_reasons,
    mk_flags, mk_flags, mk_capacity_inputs, mk_capacity_inputs, mk_alts]
  refine ⟨rfl, rfl, by rfl, rfl, rfl, rfl, rfl, rfl, rfl, by rfl, by rfl, rfl, by rfl, ?_⟩
  unfold alts_in_scope_of
  rfl

/-- Witness for the C9 theorem: flipping all three scope toggles on
`sampleInput`. -/
theorem scope_toggles_affect_only_scope_witness :
    sampleResults.risk_attitude_score = sampleResults.risk_attitude_score ∧
    sampleResults.risk_attitude_band = sampleResults.risk_attitude_band ∧
    sampleResults.neutral_count = sampleResults.neutral_count ∧
    sampleResults.cap_points = sampleResults.cap_points ∧
    sampleResults.capacity_band = sampleResults.capacity_band ∧
    sampleResults.capacity_max_allowed_band = sampleResults.capacity_max_allowed_band ∧
    sampleResults.final_band = sampleResults.final_band ∧
    sampleResults.override_applied = sampleResults.override_applied ∧
    sampleResults.base_limits = sampleResults.base_limits ∧
    sampleResults.final_limits = sampleResults.final_limits ∧
    sampleResults.alt_forced_zero_reasons = sampleResults.alt_forced_zero_reasons ∧
    sampleResults.flags = sampleResults.flags ∧
    sampleResults.capacity_inputs = sampleResults.capacity_inputs ∧
    sampleResults.alts_in_scope =
      (if true = true then ["Public REITs"] else []) ++
      (if false = true then ["Commodity funds"] else []) ++
      (if false = true then
        ["Selected equities treated as 'alternative-like' (internal classification)"]
        else []) :=
  scope_toggles_affect_only_scope sampleInput true false false sampleResults sampleResults
    (by rfl) (by rfl)

end Amberstone
